import Mathlib

/-!
Shallow embedding of the RAG-Voice-Chatbot backend (Python) in Lean 4,
covering the SQL safety gate, SQL repair, the OCR decision heuristic, the
bounded conversation memory, the chunk store with source-level dedup, the
context retrieval, and the chat router of `src/backend`.

External services (LLM backends, the vector store network calls, SQLite
execution) are modelled as oracle inputs; the repository code that consumes
their results is translated faithfully from the source.
-/

set_option maxRecDepth 8192

namespace RagBot

/-! ## Python-style string primitives -/

/-- Whitespace characters stripped by Python `str.strip()` and matched by
the regex class `\s` (ASCII part). -/
def isPySpace (c : Char) : Bool :=
  c = ' ' || c = '\t' || c = '\n' || c = '\r' || c = '\x0b' || c = '\x0c'

/-- Python `str.strip()` on a character list. -/
def pyStripList (l : List Char) : List Char :=
  ((l.dropWhile isPySpace).reverse.dropWhile isPySpace).reverse

/-- Python `str.strip()`. -/
def pyStrip (s : String) : String :=
  String.mk (pyStripList s.toList)

/-- Python `str.rstrip(";")`: drop trailing semicolons. -/
def rstripSemi (s : String) : String :=
  String.mk ((s.toList.reverse.dropWhile (· = ';')).reverse)

/-- Python `str.lower()` (character-wise, as for ASCII SQL text). -/
def strToLower (s : String) : String :=
  String.mk (s.toList.map Char.toLower)

/-- Python `str.upper()` (character-wise). -/
def strToUpper (s : String) : String :=
  String.mk (s.toList.map Char.toUpper)

/-- Python `str.startswith(pre)`. -/
def strStartsWith (s pre : String) : Bool :=
  pre.toList.isPrefixOf s.toList

/-- Substring containment on character lists (Python `in` on `str`). -/
def containsSubList (needle : List Char) : List Char → Bool
  | [] => needle.isPrefixOf []
  | c :: rest => needle.isPrefixOf (c :: rest) || containsSubList needle rest

/-- Substring containment: `containsSub pat s` is Python `pat in s`. -/
def containsSub (needle hay : String) : Bool :=
  containsSubList needle.toList hay.toList

/-- Word character of the regex class `\w` (ASCII part): letters, digits,
underscore. -/
def wordChar (c : Char) : Bool :=
  c.isAlphanum || c = '_'

/-- Left word-boundary check for position-zero or a given preceding char. -/
def boundaryL : Option Char → Bool
  | none => true
  | some c => !wordChar c

/-- The word `w` matches at the head of `s` with a right word boundary
after it (the trailing `\b` of the regex `\b w \b`). -/
def wwAt (w : List Char) (s : List Char) : Bool :=
  w.isPrefixOf s &&
    (match s.drop w.length with
     | [] => true
     | c :: _ => !wordChar c)

/-- Scan `s` for a whole-word occurrence of `w`; `prev` is the character
just before the current position (`none` at the start of the string). -/
def hasWWAux (w : List Char) (prev : Option Char) : List Char → Bool
  | [] => boundaryL prev && wwAt w []
  | c :: rest => (boundaryL prev && wwAt w (c :: rest)) || hasWWAux w (some c) rest

/-- Python `re.search(rf"\b{w}\b", s)` viewed as a Boolean, for a word `w`
made of word characters. -/
def hasWholeWord (w : String) (s : String) : Bool :=
  hasWWAux w.toList none s.toList

/-! ## database.py: constants and `enforce_sql_safety` -/

/-- The `FORBIDDEN_KEYWORDS` set of `database.py` (as a list; only
membership matters for acceptance/rejection). -/
def FORBIDDEN_KEYWORDS : List String :=
  ["delete", "drop", "update", "insert", "alter",
   "truncate", "create", "replace", "attach", "detach"]

/-- `MAX_SQL_LIMIT` of `database.py`. -/
def MAX_SQL_LIMIT : Nat := 100

/-- `enforce_sql_safety` of `database.py`: reject non-SELECT queries and
whole-word forbidden keywords, then append `LIMIT 100` when the stripped
lower-cased query does not contain the substring `" limit "`.
Raised `ValueError`s are modelled as `Except.error`. -/
def enforce_sql_safety (sql : String) : Except String String :=
  let sql_clean := strToLower (pyStrip sql)
  if !strStartsWith sql_clean "select" then
    .error "Only SELECT queries are allowed"
  else
    match FORBIDDEN_KEYWORDS.find? (fun w => hasWholeWord w sql_clean) with
    | some w => .error ("Forbidden SQL operation: " ++ strToUpper w)
    | none =>
      if !containsSub " limit " sql_clean then
        .ok (rstripSemi sql ++ (" LIMIT " ++ toString MAX_SQL_LIMIT ++ ";"))
      else
        .ok sql

/-! ## database.py: `repair_sql`

The two clause-reordering rewrites use the Python regexes
`SELECT (.+?) WHERE (.+?) FROM ([a-zA-Z0-9_]+)` and
`SELECT (.+?) ORDER BY (.+?) FROM ([a-zA-Z0-9_]+)` with `re.I`, applied by
`re.sub` (global, leftmost, non-overlapping; lazy groups grow minimally,
`.` does not match a newline).  The matcher below implements exactly that
backtracking order for this pattern shape. -/

/-- Match the lower-case literal `lit` case-insensitively at the head of a
list, returning the remainder. -/
def stripCI : List Char → List Char → Option (List Char)
  | [], s => some s
  | _ :: _, [] => none
  | p :: ps, c :: cs => if c.toLower = p then stripCI ps cs else none

/-- Search for the lazily-minimal nonempty group `g2` such that the input
is `g2 ++ " FROM " ++ g3 ++ rest` with `g3` a maximal nonempty run of word
characters (`([a-zA-Z0-9_]+)` after the literal `" FROM "`). -/
def matchG2 : List Char → Option (List Char × List Char × List Char)
  | [] => none
  | c :: cs =>
    if c = '\n' then none
    else
      let ext :=
        match matchG2 cs with
        | some (g2, g3, rest) => some (c :: g2, g3, rest)
        | none => none
      match stripCI (" from ".toList) cs with
      | some r4 =>
        let g3 := r4.takeWhile wordChar
        if g3.isEmpty then ext else some ([c], g3, r4.drop g3.length)
      | none => ext

/-- Search for the lazily-minimal nonempty group `g1` such that the input
is `g1 ++ mid ++ tail` where `mid` matches case-insensitively and `tail`
admits a `matchG2` split; mirrors the regex backtracking over `(.+?)`. -/
def matchG1 (mid : List Char) : List Char → Option (List Char × List Char × List Char × List Char)
  | [] => none
  | c :: cs =>
    if c = '\n' then none
    else
      let ext :=
        match matchG1 mid cs with
        | some (g1, g2, g3, rest) => some (c :: g1, g2, g3, rest)
        | none => none
      match stripCI mid cs with
      | some r2 =>
        match matchG2 r2 with
        | some (g2, g3, rest) => some ([c], g2, g3, rest)
        | none => ext
      | none => ext

/-- Try the full pattern `SELECT (.+?) mid (.+?) FROM ([a-zA-Z0-9_]+)` at
the head of `s`; on success return the instantiated replacement template
`SELECT \1 FROM \3 midRep \2` and the unconsumed remainder. -/
def tryPat (mid midRep : List Char) (s : List Char) : Option (List Char × List Char) :=
  match stripCI ("select ".toList) s with
  | none => none
  | some r1 =>
    match matchG1 mid r1 with
    | none => none
    | some (g1, g2, g3, rest) =>
      some ("SELECT ".toList ++ g1 ++ " FROM ".toList ++ g3 ++ midRep ++ g2, rest)

/-- Global substitution scanner for `tryPat` (Python `re.sub`): scan left
to right, replace each leftmost match, continue after it.  `fuel` bounds
the recursion; every match consumes at least the 7-character literal
`"select "`, so an initial fuel of the input length is never exhausted. -/
def subPatF (mid midRep : List Char) : Nat → List Char → List Char
  | 0, s => s
  | _ + 1, [] => []
  | fuel + 1, c :: cs =>
    match tryPat mid midRep (c :: cs) with
    | some (rep, rest) => rep ++ subPatF mid midRep fuel rest
    | none => c :: subPatF mid midRep fuel cs

/-- One clause-reordering rewrite of `repair_sql` as a string function. -/
def subPat (mid midRep : String) (s : String) : String :=
  String.mk (subPatF mid.toList midRep.toList s.toList.length s.toList)

/-- Try the pattern `FROM\s+FROM` (case-insensitive) at the head of `s`;
on success return the remainder after the match. -/
def tryFF (s : List Char) : Option (List Char) :=
  match stripCI ("from".toList) s with
  | none => none
  | some r1 =>
    let ws := r1.takeWhile isPySpace
    if ws.isEmpty then none
    else stripCI ("from".toList) (r1.drop ws.length)

/-- Global substitution scanner replacing `FROM\s+FROM` by `FROM`. -/
def subFFF : Nat → List Char → List Char
  | 0, s => s
  | _ + 1, [] => []
  | fuel + 1, c :: cs =>
    match tryFF (c :: cs) with
    | some rest => "FROM".toList ++ subFFF fuel rest
    | none => c :: subFFF fuel cs

/-- The Python rewrite `re.sub(r"\s+", " ", sql)`: collapse every run of
whitespace into a single space (`inWS` records whether the previous
character was part of a whitespace run already emitted as a space). -/
def normWSAux : Bool → List Char → List Char
  | _, [] => []
  | inWS, c :: rest =>
    if isPySpace c then
      if inWS then normWSAux true rest else ' ' :: normWSAux true rest
    else c :: normWSAux false rest

/-- The Python rewrite `re.sub(r"\s+", " ", sql)` on a character list. -/
def normWSList (l : List Char) : List Char :=
  normWSAux false l

/-- The whitespace normalization and the three rewrites of `repair_sql`,
in source order: strip, collapse whitespace, reorder `WHERE`, reorder
`ORDER BY`, collapse `FROM FROM`. -/
def fixSql (sql : String) : String :=
  let s1 := String.mk (normWSList (pyStrip sql).toList)
  let s2 := subPat " where " " WHERE " s1
  let s3 := subPat " order by " " ORDER BY " s2
  String.mk (subFFF s3.toList.length s3.toList)

/-- `repair_sql` of `database.py`: apply the fixes, then fail when no
whole-word `FROM` (case-insensitive) is present, else return the stripped
result. -/
def repair_sql (sql : String) : Except String String :=
  let s4 := fixSql sql
  if !hasWholeWord "from" (strToLower s4) then .error "Invalid SQL (missing FROM clause)"
  else .ok (pyStrip s4)

/-! ## ocr_utils.py: `is_scanned_pdf` -/

/-- `is_scanned_pdf` of `ocr_utils.py`.  Real-number division is modelled
exactly over `ℚ`; Python `ch.isalpha()` is modelled by `Char.isAlpha`.
The source default threshold `min_alpha_ratio = 0.2` is the rational
`1/5` (the parameter is renamed to `min_alpha_frac` here). -/
def is_scanned_pdf (pdf_text : String) (page_count : Option Int := none)
    (min_total_chars : Nat := 300) (min_chars_per_page : Nat := 120)
    (min_alpha_frac : ℚ := 1/5) : Bool :=
  let text := pyStrip pdf_text
  let total_chars : Nat := text.length
  if total_chars = 0 then true
  else
    let chars_per_page : ℚ :=
      match page_count with
      | some p => if 0 < p then (total_chars : ℚ) / (p : ℚ) else (total_chars : ℚ)
      | none => (total_chars : ℚ)
    let alpha_chars : Nat := (text.toList.filter Char.isAlpha).length
    let alphaFrac : ℚ := (alpha_chars : ℚ) / (total_chars : ℚ)
    decide (total_chars < min_total_chars) ||
      decide (chars_per_page < (min_chars_per_page : ℚ)) ||
      decide (alphaFrac < min_alpha_frac)

/-- Right word-boundary condition after a whole-word match, as a function
of the remainder of the string. -/
def rightBd : List Char → Bool
  | [] => true
  | c :: _ => !wordChar c

/-- The character immediately preceding the end of `pre`, defaulting to
`prev` when `pre` is empty; tracks the scanning state of `hasWWAux`. -/
def lastO : List Char → Option Char → Option Char
  | [], prev => prev
  | c :: pre, _ => lastO pre (some c)

/-! ## config.py: bounded conversation memory -/

/-- A conversation entry (`{"role": ..., "content": ...}`). -/
structure ChatMsg where
  role : String
  content : String
deriving DecidableEq

/-- Append to a Python `collections.deque(maxlen=cap)`: push right,
evicting from the left once the capacity is exceeded. -/
def dequeAppend (cap : Nat) (l : List α) (x : α) : List α :=
  let l2 := l ++ [x]
  l2.drop (l2.length - cap)

/-- The capacity of `chat_memory = deque(maxlen=10)` in `config.py`. -/
def chatMemoryMax : Nat := 10

/-- `remember_exchange` of `config.py`: append the user entry, then the
assistant entry, to the bounded deque. -/
def remember_exchange (mem : List ChatMsg) (user_text assistant_text : String) : List ChatMsg :=
  dequeAppend chatMemoryMax
    (dequeAppend chatMemoryMax mem ⟨"user", user_text⟩)
    ⟨"assistant", assistant_text⟩

/-! ## embeddings.py: chunk store with source-level dedup -/

/-- A stored chunk: document text plus its `{"source": ...}` metadata. -/
structure ChunkEntry where
  doc : String
  source : Option String
deriving DecidableEq

/-- A ChromaDB collection as seen by the repository code: its stored
entries plus oracle flags saying whether each vector-store call raises,
and the documents a nearest-neighbour query would return. -/
structure Collection where
  entries : List ChunkEntry
  getFails : Bool
  countFails : Bool
  queryFails : Bool
  queryDocs : List String
deriving DecidableEq

/-- `collection.get(where={"source": source})`: exact-equality filter on
the `source` metadata, or a raised exception when the store fails. -/
def collection_get (c : Collection) (source : String) : Except String (List ChunkEntry) :=
  if c.getFails then .error "vector store get failed"
  else .ok (c.entries.filter (fun e => e.source == some source))

/-- `collection.add(ids=…, documents=…, metadatas=…)`: batch insertion. -/
def collection_add (c : Collection) (new : List ChunkEntry) : Collection :=
  { c with entries := c.entries ++ new }

/-- Modelled from the spec: the `RecursiveCharacterTextSplitter` of the
external `langchain_text_splitters` library is not repository code; per
spec section 4.1 it splits text into windows of at most `chunk_size`
characters with consecutive windows overlapping by `chunk_overlap`
characters, and yields no chunk for empty text.  `step` is the window
stride `chunk_size - chunk_overlap` (clamped to at least 1). -/
def splitTextF (chunk_size step : Nat) : Nat → List Char → List String
  | 0, _ => []
  | _ + 1, [] => []
  | fuel + 1, c :: rest =>
    if rest.length + 1 ≤ chunk_size then [String.mk (c :: rest)]
    else String.mk ((c :: rest).take chunk_size) ::
      splitTextF chunk_size step fuel (rest.drop (step - 1))

/-- Modelled from the spec: split `text` into overlapping fixed-size
windows (see `splitTextF`; every recursive call consumes at least one
character, so an initial fuel of the text length is never exhausted). -/
def splitText (chunk_size chunk_overlap : Nat) (text : String) : List String :=
  splitTextF chunk_size (chunk_size - chunk_overlap) text.toList.length text.toList

/-- `chunk_and_store` of `embeddings.py`: when a source is given, look for
existing chunks with that exact source; on a hit return `(0, true)`
without modification; when the duplicate check raises, log and proceed as
if no duplicate; otherwise split the text, tag each chunk with the source
metadata, add the batch, and return `(chunkCount, false)`. -/
def chunk_and_store (text : String) (c : Collection) (source : Option String)
    (chunk_size : Nat := 1000) (chunk_overlap : Nat := 200) :
    (Nat × Bool) × Collection :=
  let dup : Bool :=
    match source with
    | some s =>
      match collection_get c s with
      | .ok existing => decide (0 < existing.length)
      | .error _ => false
    | none => false
  if dup then ((0, true), c)
  else
    let chunks := splitText chunk_size chunk_overlap text
    let metadatas := chunks.map (fun d => ChunkEntry.mk d source)
    ((chunks.length, false), collection_add c metadatas)

/-- `retrieve_context` of `embeddings.py`: the whole body runs under a
`try`/`except` that returns `""` on any vector-store exception; an empty
collection returns `""`; otherwise the `min(n_results, count)` retrieved
documents are joined with a blank-line separator. -/
def retrieve_context (query : String) (c : Collection) (n_results : Nat := 5) : String :=
  if c.countFails then ""
  else
    let count := c.entries.length
    if count = 0 then ""
    else if c.queryFails then ""
    else String.intercalate "\n\n" (c.queryDocs.take (min n_results count))

/-! ## database.py: schema and result formatting -/

/-- A SQL result row as an ordered association list (Python `dict`). -/
abbrev Row := List (String × String)

/-- `get_db_schema` of `database.py`: the database is `none` when the
file does not exist, otherwise the list of user tables `(name, sql)`. -/
def get_db_schema (db : Option (List (String × String))) : String :=
  match db with
  | none => "No database found. Upload a CSV first."
  | some [] => "Database is empty. Upload CSV data first."
  | some rows => String.intercalate "\n\n" (rows.map (fun r => r.2 ++ ";"))

/-- `format_sql_table` of `database.py`: markdown table over the keys of
the first row. -/
def format_sql_table (rows : List Row) : String :=
  match rows with
  | [] => "*(no results)*"
  | r0 :: _ =>
    let headers := r0.map Prod.fst
    let headerRow := "| " ++ String.intercalate " | " headers ++ " |\n"
    let sepRow := "|" ++ String.intercalate "|" (headers.map (fun _ => "---")) ++ "|\n"
    let dataRows := rows.map (fun r =>
      "| " ++ String.intercalate " | "
        (headers.map (fun h => (((r.find? (fun p => p.1 == h)).map Prod.snd)).getD "")) ++ " |\n")
    "\n" ++ headerRow ++ sepRow ++ String.join dataRows

/-! ## main.py: the chat endpoint -/

/-- `GROQ_MODEL` configured in `config.py`. -/
def GROQ_MODEL : String := "llama-3.1-8b-instant"

/-- The request model of the `/chat` endpoint. -/
structure ChatRequest where
  message : String
  use_video : Bool := false
  use_audio : Bool := false
  use_pdf : Bool := false
  use_image : Bool := false
  use_sql : Bool := false

/-- Oracle outcomes of the external services a single `/chat` request may
consult.  `send_groq_chat` may raise (`Except`); `send_ollama_chat` never
raises and signals failure through marker strings; `generate_sql_with_llm`
raises when both backends fail; `execute_sql` may raise. -/
structure ChatEnv where
  db : Option (List (String × String))
  videoColl : Collection
  audioColl : Collection
  pdfColl : Collection
  imageColl : Collection
  groq : Except String String
  ollama : String
  sqlGen : Except String String
  sqlExec : Except String (List Row)

/-- The JSON bodies the `/chat` endpoint returns, distinguished by the
return site: `errorOut` for `{"error": ...}`, `shortCircuit` for the
fixed no-data/no-context replies produced before any LLM call, `reply`
for LLM-backed replies, and `sqlReply` for the SQL-mode success body with
its extra fields. -/
inductive ChatOut
  | errorOut (text : String)
  | shortCircuit (text source : String)
  | reply (text source : String)
  | sqlReply (text source sql : String) (row_count : Nat) (rows : List Row)
deriving DecidableEq

/-- The observable trace of one `/chat` request: the response, the
arguments of every `remember_exchange` call in order, and the number of
chat-LLM backend invocations. -/
structure ChatTrace where
  out : ChatOut
  remembers : List (String × String)
  llmCalls : Nat
deriving DecidableEq

/-- The `/chat` endpoint of `main.py`: empty-message guard, then the
mutually exclusive modes in source order (SQL, video, audio, PDF, image,
normal), each translated from its branch. -/
def chat (req : ChatRequest) (env : ChatEnv) : ChatTrace :=
  if pyStrip req.message = "" then
    ⟨.errorOut "Message cannot be empty", [], 0⟩
  else if req.use_sql then
    if containsSub "No database found" (get_db_schema env.db) ||
        containsSub "Database is empty" (get_db_schema env.db) then
      ⟨.shortCircuit "No SQL database available. Please upload a CSV file first." "SQL Context",
       [], 0⟩
    else
      match env.sqlGen with
      | .error e => ⟨.errorOut ("SQL query failed: " ++ e), [], 1⟩
      | .ok raw_sql =>
        match repair_sql raw_sql with
        | .error e => ⟨.errorOut ("SQL query failed: " ++ e), [], 1⟩
        | .ok fixed_sql =>
          match enforce_sql_safety fixed_sql with
          | .error e => ⟨.errorOut ("SQL query failed: " ++ e), [], 1⟩
          | .ok safe_sql =>
            match env.sqlExec with
            | .error e => ⟨.errorOut ("SQL query failed: " ++ e), [], 1⟩
            | .ok rows =>
              let table := format_sql_table rows
              let response_text :=
                "**SQL Query:**\n```sql\n" ++ safe_sql ++ "\n```\n\n**Results:** (" ++
                  toString rows.length ++ " rows)\n\n" ++ table
              ⟨.sqlReply response_text "SQL Query" safe_sql rows.length (rows.take 10),
               [(req.message, response_text)], 1⟩
  else if req.use_video then
    if retrieve_context req.message env.videoColl 5 = "" then
      ⟨.shortCircuit "Question is not in this video (no matching transcript context)."
        "Video Context", [], 0⟩
    else
      match env.groq with
      | .ok reply =>
        ⟨.reply ("GROQ answer (" ++ GROQ_MODEL ++ ") [Video Mode]: \n" ++ reply) "Groq (Video)",
         [(req.message, reply)], 1⟩
      | .error _ =>
        ⟨.reply env.ollama "Ollama (Video Fallback)", [(req.message, env.ollama)], 2⟩
  else if req.use_audio then
    if retrieve_context req.message env.audioColl 5 = "" then
      ⟨.shortCircuit "Question is not in this audio (no matching transcript context)."
        "Audio Context", [], 0⟩
    else
      if !containsSub "Ollama Fallback Error" env.ollama then
        ⟨.reply env.ollama "Ollama (Audio)", [(req.message, env.ollama)], 1⟩
      else
        match env.groq with
        | .ok reply =>
          ⟨.reply ("GROQ answer (" ++ GROQ_MODEL ++ ") [Audio Mode]: \n" ++ reply)
            "Groq (Audio Fallback)", [(req.message, reply)], 2⟩
        | .error e => ⟨.errorOut ("Audio query failed: " ++ e), [], 2⟩
  else if req.use_pdf then
    if retrieve_context req.message env.pdfColl 5 = "" then
      ⟨.shortCircuit "Question is not in this PDF (no matching document context)."
        "PDF Context", [], 0⟩
    else
      if !containsSub "Ollama Fallback Error" env.ollama then
        ⟨.reply env.ollama "Ollama (PDF)", [(req.message, env.ollama)], 1⟩
      else
        match env.groq with
        | .ok reply =>
          ⟨.reply ("GROQ answer (" ++ GROQ_MODEL ++ ") [PDF Mode]: \n" ++ reply)
            "Groq (PDF Fallback)", [(req.message, reply)], 2⟩
        | .error e => ⟨.errorOut ("PDF query failed: " ++ e), [], 2⟩
  else if req.use_image then
    if retrieve_context req.message env.imageColl 5 = "" ||
        pyStrip (retrieve_context req.message env.imageColl 5) = "" then
      ⟨.shortCircuit
        "No image has been uploaded yet, or the question cannot be matched with the uploaded image content. Please upload an image first."
        "Image Context", [], 0⟩
    else
      if !containsSub "Ollama Fallback Error" env.ollama then
        ⟨.reply env.ollama "Ollama (Image)", [(req.message, env.ollama)], 1⟩
      else
        match env.groq with
        | .ok reply =>
          ⟨.reply ("GROQ answer (" ++ GROQ_MODEL ++ ") [Image Mode]: \n" ++ reply)
            "Groq (Image Fallback)", [(req.message, reply)], 2⟩
        | .error e => ⟨.errorOut ("Image query failed: " ++ e), [], 2⟩
  else
    if !containsSub "Fallback Error" env.ollama then
      ⟨.reply env.ollama "Ollama", [(req.message, env.ollama)], 1⟩
    else
      match env.groq with
      | .ok reply =>
        let formatted_reply := "GROQ answer (" ++ GROQ_MODEL ++ "): " ++ reply
        ⟨.reply formatted_reply "Groq (Fallback)", [(req.message, formatted_reply)], 2⟩
      | .error e =>
        ⟨.errorOut ("Both AI services failed. Ollama: " ++ env.ollama ++ " | Groq: " ++ e),
         [], 2⟩

/-! ## Helper lemmas -/

/-- A word matches with its right boundary at the head of `w ++ post`. -/
theorem wwAt_append (w post : List Char) : wwAt w (w ++ post) = rightBd post := by
  unfold wwAt rightBd
  rw [List.drop_left]
  have hpre : w.isPrefixOf (w ++ post) = true := by
    simp [List.isPrefixOf_iff_prefix]
  rw [hpre]
  cases post <;> simp

/-- A decomposition `pre ++ w ++ post` with word boundaries on both sides
makes the whole-word scan succeed. -/
theorem hasWWAux_of_decomp (w : List Char) (hw : w ≠ []) :
    ∀ (pre : List Char) (prev : Option Char) (post : List Char),
      boundaryL (lastO pre prev) = true → rightBd post = true →
      hasWWAux w prev (pre ++ (w ++ post)) = true := by
  intro pre
  induction pre with
  | nil =>
    intro prev post hb hr
    rcases w with _ | ⟨wc, wrest⟩
    · exact absurd rfl hw
    · show hasWWAux (wc :: wrest) prev (wc :: (wrest ++ post)) = true
      unfold hasWWAux
      have : wwAt (wc :: wrest) ((wc :: wrest) ++ post) = true := by
        rw [wwAt_append]; exact hr
      simp only [List.cons_append] at this
      rw [show lastO [] prev = prev from rfl] at hb
      simp [hb, this]
  | cons c pre ih =>
    intro prev post hb hr
    show hasWWAux w prev (c :: (pre ++ (w ++ post))) = true
    unfold hasWWAux
    have hih : hasWWAux w (some c) (pre ++ (w ++ post)) = true := by
      apply ih (some c) post _ hr
      rw [show lastO (c :: pre) prev = lastO pre (some c) from rfl] at hb
      exact hb
    simp [hih]

/-- Bridge from the `getLast?` of a nonempty scanned prefix to `lastO`. -/
theorem lastO_of_getLast? (pre : List Char) (c : Char) (prev : Option Char)
    (h : pre.getLast? = some c) : lastO pre prev = some c := by
  induction pre generalizing prev with
  | nil => simp at h
  | cons x pre ih =>
    rcases pre with _ | ⟨y, pre'⟩
    · simp at h
      subst h
      rfl
    · rw [List.getLast?_cons_cons] at h
      exact ih (some x) h

/-- Whole-word occurrence from an explicit decomposition of the string. -/
theorem hasWholeWord_of_decomp (w s : String) (pre post : List Char) (hw : w.toList ≠ [])
    (hdec : s.toList = pre ++ w.toList ++ post)
    (hpre : pre = [] ∨ ∃ c, pre.getLast? = some c ∧ wordChar c = false)
    (hpost : post = [] ∨ ∃ c, post.head? = some c ∧ wordChar c = false) :
    hasWholeWord w s = true := by
  unfold hasWholeWord
  rw [hdec, List.append_assoc]
  apply hasWWAux_of_decomp w.toList hw pre none post
  · rcases hpre with h | ⟨c, hc, hcw⟩
    · subst h; rfl
    · rw [lastO_of_getLast? pre c none hc]
      simp [boundaryL, hcw]
  · rcases hpost with h | ⟨c, hc, hcw⟩
    · subst h; rfl
    · rcases post with _ | ⟨p0, prest⟩
      · rfl
      · simp at hc
        subst hc
        simp [rightBd, hcw]

/-! ## Claim theorems -/

/-- C1: `enforce_sql_safety` rejects (raises `ValueError`, modelled as
`Except.error`) every query whose stripped lower-cased text does not
begin with `select`, and every query in which a forbidden keyword occurs
as a whole word (an occurrence with no word character adjacent on either
side) in the stripped lower-cased text; in particular
`"SELECT * FROM users; DROP TABLE users"` is rejected. -/
theorem enforce_sql_safety_rejects :
    (∀ sql : String, strStartsWith (strToLower (pyStrip sql)) "select" = false →
      ∃ e, enforce_sql_safety sql = .error e) ∧
    (∀ (sql w : String) (pre post : List Char), w ∈ FORBIDDEN_KEYWORDS →
      (strToLower (pyStrip sql)).toList = pre ++ w.toList ++ post →
      (pre = [] ∨ ∃ c, pre.getLast? = some c ∧ wordChar c = false) →
      (post = [] ∨ ∃ c, post.head? = some c ∧ wordChar c = false) →
      ∃ e, enforce_sql_safety sql = .error e) ∧
    (∃ e, enforce_sql_safety "SELECT * FROM users; DROP TABLE users" = .error e) := by
  refine ⟨?_, ?_, ?_⟩
  · intro sql h
    refine ⟨"Only SELECT queries are allowed", ?_⟩
    unfold enforce_sql_safety
    simp [h]
  · intro sql w pre post hw hdec hpre hpost
    have hwne : w.toList ≠ [] := by
      fin_cases hw <;> decide
    have hww : hasWholeWord w (strToLower (pyStrip sql)) = true :=
      hasWholeWord_of_decomp w _ pre post hwne hdec hpre hpost
    unfold enforce_sql_safety
    by_cases hsel : strStartsWith (strToLower (pyStrip sql)) "select" = true
    · rcases hfind : FORBIDDEN_KEYWORDS.find?
          (fun w => hasWholeWord w (strToLower (pyStrip sql))) with _ | w'
      · exact absurd hww (by simpa using List.find?_eq_none.mp hfind w hw)
      · exact ⟨"Forbidden SQL operation: " ++ strToUpper w', by simp [hsel, hfind]⟩
    · exact ⟨"Only SELECT queries are allowed",
        by simp [Bool.not_eq_true _ ▸ Bool.of_not_eq_true hsel]⟩
  · exact ⟨"Forbidden SQL operation: DROP", by rfl⟩

/-- Witness for C1: both rejection conditions discharged at concrete
queries (`"DELETE FROM t"` does not start with `select`;
`"select price, drop from t"` contains `drop` as a whole word). -/
theorem enforce_sql_safety_rejects_witness :
    (∃ e, enforce_sql_safety "DELETE FROM t" = .error e) ∧
    (∃ e, enforce_sql_safety "select price, drop from t" = .error e) := by
  constructor
  · exact enforce_sql_safety_rejects.1 "DELETE FROM t" (by decide)
  · exact enforce_sql_safety_rejects.2.1 "select price, drop from t" "drop"
      "select price, ".toList " from t".toList (by decide) (by decide)
      (Or.inr ⟨' ', by decide, by decide⟩) (Or.inr ⟨' ', by decide, by decide⟩)

/-- C6 (amended): on a query accepted by the safety checks,
`enforce_sql_safety` appends `LIMIT 100` after stripping trailing
semicolons exactly when the stripped lower-cased query does not contain
the literal seven-character substring `" limit "` (the code's detection
of an existing LIMIT clause), and returns the query completely unchanged
when it does; in particular `"select * from t"` gains ` LIMIT 100;` and
`"select * from t limit 5"` is unchanged. -/
theorem enforce_sql_safety_limit (sql : String)
    (hsel : strStartsWith (strToLower (pyStrip sql)) "select" = true)
    (hkw : ∀ w ∈ FORBIDDEN_KEYWORDS, hasWholeWord w (strToLower (pyStrip sql)) = false) :
    (containsSub " limit " (strToLower (pyStrip sql)) = false →
      enforce_sql_safety sql = .ok (rstripSemi sql ++ " LIMIT 100;")) ∧
    (containsSub " limit " (strToLower (pyStrip sql)) = true →
      enforce_sql_safety sql = .ok sql) ∧
    enforce_sql_safety "select * from t" = .ok "select * from t LIMIT 100;" ∧
    enforce_sql_safety "select * from t limit 5" = .ok "select * from t limit 5" := by
  have hfind : FORBIDDEN_KEYWORDS.find?
      (fun w => hasWholeWord w (strToLower (pyStrip sql))) = none :=
    List.find?_eq_none.mpr (by simpa using hkw)
  refine ⟨?_, ?_, by rfl, by rfl⟩
  · intro hlim
    unfold enforce_sql_safety
    simp only [hsel, hfind, hlim, Bool.not_false, Bool.not_true, if_true, if_false, ite_true,
      ite_false]
    exact congrArg (fun z => Except.ok (rstripSemi sql ++ z)) (by decide)
  · intro hlim
    unfold enforce_sql_safety
    simp [hsel, hfind, hlim]

/-- Witness for C6: the two hypotheses discharged at
`"select * from t"`, whose stripped lower-cased form starts with `select`
and carries no forbidden keyword and no `" limit "` substring. -/
theorem enforce_sql_safety_limit_witness :
    enforce_sql_safety "select * from t" = .ok (rstripSemi "select * from t" ++ " LIMIT 100;") :=
  (enforce_sql_safety_limit "select * from t" (by decide) (by decide)).1 (by decide)

/-- Counterexample for C6 as originally stated: the query
`"select * from t\tlimit 5"` carries an explicit `LIMIT` clause (the
whole word `limit` followed by a count), yet it is not returned
unchanged: the tab before `limit` defeats the space-delimited substring
check and a second `LIMIT 100` is appended. -/
theorem enforce_sql_safety_limit_cex :
    enforce_sql_safety "select * from t\tlimit 5" =
      .ok "select * from t\tlimit 5 LIMIT 100;" ∧
    hasWholeWord "limit" (strToLower (pyStrip "select * from t\tlimit 5")) = true ∧
    "select * from t\tlimit 5 LIMIT 100;" ≠ "select * from t\tlimit 5" := by
  refine ⟨by rfl, by rfl, by decide⟩

/-- C5: `repair_sql` normalizes whitespace, rewrites
`SELECT … WHERE … FROM table` to `SELECT … FROM table WHERE …`, rewrites
`SELECT … ORDER BY … FROM table` to `SELECT … FROM table ORDER BY …`,
collapses a duplicated `FROM FROM`, and raises an error for every input
with no whole-word `FROM` left after these fixes; in particular
`repair_sql "SELECT name WHERE age>5 FROM users"` equals
`"SELECT name FROM users WHERE age>5"`. -/
theorem repair_sql_spec :
    repair_sql "SELECT name WHERE age>5 FROM users" =
      .ok "SELECT name FROM users WHERE age>5" ∧
    repair_sql "SELECT a ORDER BY b FROM t" = .ok "SELECT a FROM t ORDER BY b" ∧
    repair_sql "SELECT a FROM FROM t" = .ok "SELECT a FROM t" ∧
    repair_sql "  SELECT   a \n  FROM   t  " = .ok "SELECT a FROM t" ∧
    (∀ sql : String, hasWholeWord "from" (strToLower (fixSql sql)) = false →
      repair_sql sql = .error "Invalid SQL (missing FROM clause)") := by
  refine ⟨by rfl, by rfl, by rfl, by rfl, ?_⟩
  intro sql h
  unfold repair_sql
  simp [h]

/-- Witness for C5: the no-FROM hypothesis discharged at `"SELECT 1"`,
which has no `FROM` clause after the fixes and is rejected. -/
theorem repair_sql_spec_witness :
    repair_sql "SELECT 1" = .error "Invalid SQL (missing FROM clause)" :=
  repair_sql_spec.2.2.2.2 "SELECT 1" (by rfl)

/-- Rational-ratio comparison against `1/5` as an integer inequality. -/
theorem alpha_lt_iff (a b : ℕ) (hb : 0 < b) :
    ((a : ℚ) / (b : ℚ) < 1 / 5) ↔ 5 * a < b := by
  rw [div_lt_div_iff (by exact_mod_cast hb) (by norm_num)]
  constructor <;> intro h
  · have h2 : (5 * a : ℚ) < (b : ℚ) := by linarith
    exact_mod_cast h2
  · have h2 : (5 * a : ℚ) < (b : ℚ) := by exact_mod_cast h
    linarith

/-- Rational chars-per-page comparison against 120 as an integer
inequality. -/
theorem cpp_lt_iff (t : ℕ) (p : ℤ) (hp : 0 < p) :
    ((t : ℚ) / (p : ℚ) < ((120 : ℕ) : ℚ)) ↔ (t : ℤ) < 120 * p := by
  rw [div_lt_iff (by exact_mod_cast hp)]
  exact ⟨fun h => by exact_mod_cast h, fun h => by exact_mod_cast h⟩

set_option maxHeartbeats 2000000 in
/-- C4: `is_scanned_pdf` returns true exactly when the stripped text is
empty, or shorter than 300 characters, or below 120 characters per page
(per-page when the page count is known and positive, total otherwise),
or below an alphabetic-character fraction of one fifth; in particular
`needsOCR("", 1)` is true and `needsOCR("A"*500, 1)` is false. -/
theorem is_scanned_pdf_spec :
    (∀ (text : String) (pc : Option Int),
      is_scanned_pdf text pc = true ↔
        ((pyStrip text).length = 0 ∨
         (pyStrip text).length < 300 ∨
         (match pc with
          | some p =>
            if 0 < p then (((pyStrip text).length : ℤ) < 120 * p)
            else (pyStrip text).length < 120
          | none => (pyStrip text).length < 120) ∨
         5 * ((pyStrip text).toList.filter Char.isAlpha).length < (pyStrip text).length)) ∧
    is_scanned_pdf "" (some 1) = true ∧
    is_scanned_pdf (String.mk (List.replicate 500 'A')) (some 1) = false := by
  have hiff : ∀ (text : String) (pc : Option Int),
      is_scanned_pdf text pc = true ↔
        ((pyStrip text).length = 0 ∨
         (pyStrip text).length < 300 ∨
         (match pc with
          | some p =>
            if 0 < p then (((pyStrip text).length : ℤ) < 120 * p)
            else (pyStrip text).length < 120
          | none => (pyStrip text).length < 120) ∨
         5 * ((pyStrip text).toList.filter Char.isAlpha).length < (pyStrip text).length) := by
    intro text pc
    unfold is_scanned_pdf
    by_cases h0 : (pyStrip text).length = 0
    · simp [h0]
    · have hpos : 0 < (pyStrip text).length := Nat.pos_of_ne_zero h0
      rcases pc with _ | p
      · simp only [h0, if_false, ite_false, Bool.or_eq_true, decide_eq_true_eq,
          alpha_lt_iff _ _ hpos, Nat.cast_lt, or_assoc, false_or]
      · by_cases hp : 0 < p
        · simp only [h0, hp, if_false, ite_false, if_true, ite_true, Bool.or_eq_true,
            decide_eq_true_eq, alpha_lt_iff _ _ hpos, cpp_lt_iff _ _ hp, or_assoc, false_or]
        · simp only [h0, hp, if_false, ite_false, Bool.or_eq_true,
            decide_eq_true_eq, alpha_lt_iff _ _ hpos, Nat.cast_lt, or_assoc, false_or]
  refine ⟨hiff, (hiff "" (some 1)).mpr (Or.inl (by decide)), ?_⟩
  cases hb : is_scanned_pdf (String.mk (List.replicate 500 'A')) (some 1) with
  | false => rfl
  | true => exact absurd ((hiff _ _).mp hb) (by decide)

/-- Witness for C4: the equivalence applied at the nonempty text
`"ab1"` with an unknown page count (3 characters, alphabetic fraction
two thirds: OCR indicated because the text is shorter than 300). -/
theorem is_scanned_pdf_spec_witness :
    is_scanned_pdf "ab1" none = true :=
  (is_scanned_pdf_spec.1 "ab1" none).mpr (Or.inr (Or.inl (by decide)))

/-- C3: the conversation memory is a capacity-10 deque: one
`remember_exchange` keeps the length at most 10, and from an empty
memory six exchanges (12 entries, user then assistant each time) leave
exactly the last 10 entries in insertion order, the oldest two evicted. -/
theorem chat_memory_bounded :
    (∀ (mem : List ChatMsg) (u a : String), mem.length ≤ 10 →
      (remember_exchange mem u a).length ≤ 10) ∧
    (∀ u1 a1 u2 a2 u3 a3 u4 a4 u5 a5 u6 a6 : String,
      remember_exchange (remember_exchange (remember_exchange (remember_exchange
        (remember_exchange (remember_exchange [] u1 a1) u2 a2) u3 a3) u4 a4) u5 a5) u6 a6 =
      [⟨"user", u2⟩, ⟨"assistant", a2⟩, ⟨"user", u3⟩, ⟨"assistant", a3⟩,
       ⟨"user", u4⟩, ⟨"assistant", a4⟩, ⟨"user", u5⟩, ⟨"assistant", a5⟩,
       ⟨"user", u6⟩, ⟨"assistant", a6⟩]) := by
  constructor
  · intro mem u a hlen
    unfold remember_exchange dequeAppend chatMemoryMax
    simp only [List.length_drop, List.length_append, List.length_cons, List.length_nil]
    omega
  · intro u1 a1 u2 a2 u3 a3 u4 a4 u5 a5 u6 a6
    simp [remember_exchange, dequeAppend, chatMemoryMax]

/-- Witness for C3: the length bound discharged at a concrete memory
state and exchange. -/
theorem chat_memory_bounded_witness :
    (remember_exchange [⟨"user", "hi"⟩, ⟨"assistant", "hello"⟩] "u" "a").length ≤ 10 :=
  chat_memory_bounded.1 [⟨"user", "hi"⟩, ⟨"assistant", "hello"⟩] "u" "a" (by decide)

/-- C2 (amended): provided the vector-store duplicate check succeeds and
the text yields at least one chunk, a second `chunk_and_store` with an
identical `(text, source)` pair into the same collection returns
`(0, true)` and leaves the collection unmodified; and the duplicate check
fires only on exact equality of the source string: with no stored entry
whose source equals `s'` exactly, the call does not report a duplicate. -/
theorem chunk_and_store_dedup (text s : String) (c : Collection) (csize cov : Nat)
    (hget : c.getFails = false) (hch : splitText csize cov text ≠ []) :
    (chunk_and_store text ((chunk_and_store text c (some s) csize cov).2) (some s) csize cov =
      ((0, true), (chunk_and_store text c (some s) csize cov).2)) ∧
    (∀ s' : String, c.entries.filter (fun e => e.source == some s') = [] →
      (chunk_and_store text c (some s') csize cov).1.2 = false) := by
  constructor
  · rcases hf : c.entries.filter (fun e => e.source == some s) with _ | ⟨e0, es⟩
    · have h1 : chunk_and_store text c (some s) csize cov =
          (((splitText csize cov text).length, false),
            collection_add c
              ((splitText csize cov text).map (fun d => ChunkEntry.mk d (some s)))) := by
        unfold chunk_and_store collection_get
        simp [hget, hf]
      have hfilter :
          (c.entries ++
            (splitText csize cov text).map (fun d => ChunkEntry.mk d (some s))).filter
              (fun e => e.source == some s) =
            (splitText csize cov text).map (fun d => ChunkEntry.mk d (some s)) := by
        rw [List.filter_append, hf, List.filter_map]
        simp [Function.comp_def]
      rw [h1]
      unfold chunk_and_store collection_get collection_add
      simp only [hget, if_false, ite_false, Bool.false_eq_true, hfilter, List.length_map]
      simp [List.length_pos.mpr hch]
    · have h1 : chunk_and_store text c (some s) csize cov = ((0, true), c) := by
        unfold chunk_and_store collection_get
        simp [hget, hf]
      rw [h1]
      exact h1
  · intro s' hf
    unfold chunk_and_store collection_get
    simp [hget, hf]

/-- Witness for C2: both hypotheses discharged concretely — an empty
collection whose duplicate check succeeds and a nonempty text. -/
theorem chunk_and_store_dedup_witness :
    (chunk_and_store "hello world"
        ((chunk_and_store "hello world" (Collection.mk [] false false false [])
          (some "a.txt") 1000 200).2) (some "a.txt") 1000 200 =
      ((0, true),
        (chunk_and_store "hello world" (Collection.mk [] false false false [])
          (some "a.txt") 1000 200).2)) ∧
    (∀ s' : String,
      (Collection.mk [] false false false []).entries.filter
        (fun e => e.source == some s') = [] →
      (chunk_and_store "hello world" (Collection.mk [] false false false [])
        (some s') 1000 200).1.2 = false) :=
  chunk_and_store_dedup "hello world" "a.txt" (Collection.mk [] false false false [])
    1000 200 rfl (by decide)

/-- Counterexample for C2 as originally stated: with the empty text, the
splitter yields no chunks, so the first call stores nothing and the
second identical call returns `(0, false)` rather than `(0, true)`. -/
theorem chunk_and_store_dedup_cex :
    (chunk_and_store ""
        ((chunk_and_store "" (Collection.mk [] false false false [])
          (some "doc.txt") 1000 200).2) (some "doc.txt") 1000 200).1 = (0, false) ∧
    ((0, false) : Nat × Bool) ≠ (0, true) := by
  exact ⟨rfl, by decide⟩

/-- C9: when the duplicate check raises (`collection.get` fails), the
error is swallowed and ingestion proceeds as if the source were new: the
chunks are split and stored and the call returns `(chunkCount, false)`
instead of propagating the error. -/
theorem chunk_and_store_fail_open (text s : String) (c : Collection) (csize cov : Nat)
    (hfail : c.getFails = true) :
    chunk_and_store text c (some s) csize cov =
      (((splitText csize cov text).length, false),
        collection_add c
          ((splitText csize cov text).map (fun d => ChunkEntry.mk d (some s)))) := by
  unfold chunk_and_store collection_get
  simp [hfail]

/-- Witness for C9: the failing duplicate check discharged at a concrete
collection that contains the source already — the chunks are stored
again and no error escapes. -/
theorem chunk_and_store_fail_open_witness :
    chunk_and_store "abc" (Collection.mk [ChunkEntry.mk "abc" (some "a.txt")] true false false [])
        (some "a.txt") 1000 200 =
      (((splitText 1000 200 "abc").length, false),
        collection_add (Collection.mk [ChunkEntry.mk "abc" (some "a.txt")] true false false [])
          ((splitText 1000 200 "abc").map (fun d => ChunkEntry.mk d (some "a.txt")))) :=
  chunk_and_store_fail_open "abc" "a.txt"
    (Collection.mk [ChunkEntry.mk "abc" (some "a.txt")] true false false []) 1000 200 rfl

/-- C10: `retrieve_context` never raises — an empty collection or a
raised `count`/`query` call yields the empty string — and the video-mode
chat branch then answers with the same fixed not-found reply in all three
cases, calling no LLM backend (`llmCalls = 0`, `remembers = []`). -/
theorem retrieve_context_fail_closed (msg : String) (env : ChatEnv)
    (hmsg : pyStrip msg ≠ "")
    (hfail : env.videoColl.countFails = true ∨ env.videoColl.queryFails = true ∨
      env.videoColl.entries = []) :
    retrieve_context msg env.videoColl 5 = "" ∧
    chat (ChatRequest.mk msg true false false false false) env =
      ChatTrace.mk (ChatOut.shortCircuit
        "Question is not in this video (no matching transcript context)." "Video Context")
        [] 0 := by
  have hctx : retrieve_context msg env.videoColl 5 = "" := by
    unfold retrieve_context
    rcases hfail with h | h | h
    · simp [h]
    · by_cases hc : env.videoColl.countFails = true
      · simp [hc]
      · by_cases h0 : env.videoColl.entries.length = 0
        · simp [hc, h0]
        · simp [hc, h0, h]
    · simp [h]
  refine ⟨hctx, ?_⟩
  unfold chat
  simp [hmsg, hctx]

/-- Witness for C10: discharged at a concrete nonempty message and an
environment whose video collection fails its `count` call despite
holding a document. -/
theorem retrieve_context_fail_closed_witness :
    retrieve_context "what happens"
        (Collection.mk [ChunkEntry.mk "d" (some "v.mp4")] false true false ["d"]) 5 = "" ∧
    chat (ChatRequest.mk "what happens" true false false false false)
        (ChatEnv.mk none
          (Collection.mk [ChunkEntry.mk "d" (some "v.mp4")] false true false ["d"])
          (Collection.mk [] false false false []) (Collection.mk [] false false false [])
          (Collection.mk [] false false false []) (Except.ok "r") "o"
          (Except.error "") (Except.error "")) =
      ChatTrace.mk (ChatOut.shortCircuit
        "Question is not in this video (no matching transcript context)." "Video Context")
        [] 0 :=
  retrieve_context_fail_closed "what happens"
    (ChatEnv.mk none (Collection.mk [ChunkEntry.mk "d" (some "v.mp4")] false true false ["d"])
      (Collection.mk [] false false false []) (Collection.mk [] false false false [])
      (Collection.mk [] false false false []) (Except.ok "r") "o"
      (Except.error "") (Except.error "")) (by decide) (Or.inl rfl)

/-- C7 (amended): with `use_sql` and a database that is absent or holds
no user table, the chat endpoint short-circuits before any LLM call with
the fixed reply `"No SQL database available. Please upload a CSV file
first."` (source `"SQL Context"`), whose text contains the sentinel
`"upload a CSV file first"` — not an SQL error. -/
theorem chat_sql_no_data (msg : String) (env : ChatEnv)
    (hmsg : pyStrip msg ≠ "") (hdb : env.db = none ∨ env.db = some []) :
    chat (ChatRequest.mk msg false false false false true) env =
      ChatTrace.mk (ChatOut.shortCircuit
        "No SQL database available. Please upload a CSV file first." "SQL Context") [] 0 ∧
    containsSub "upload a CSV file first"
      "No SQL database available. Please upload a CSV file first." = true := by
  refine ⟨?_, rfl⟩
  unfold chat
  rcases hdb with h | h
  · have hc : containsSub "No database found" "No database found. Upload a CSV first." = true := rfl
    simp [hmsg, h, get_db_schema, hc]
  · have hc : containsSub "Database is empty" "Database is empty. Upload CSV data first." = true :=
      rfl
    simp [hmsg, h, get_db_schema, hc]

/-- Witness for C7: discharged at a concrete message with an absent
database. -/
theorem chat_sql_no_data_witness :
    chat (ChatRequest.mk "show the data" false false false false true)
        (ChatEnv.mk none (Collection.mk [] false false false [])
          (Collection.mk [] false false false []) (Collection.mk [] false false false [])
          (Collection.mk [] false false false []) (Except.error "") ""
          (Except.error "") (Except.error "")) =
      ChatTrace.mk (ChatOut.shortCircuit
        "No SQL database available. Please upload a CSV file first." "SQL Context") [] 0 ∧
    containsSub "upload a CSV file first"
      "No SQL database available. Please upload a CSV file first." = true :=
  chat_sql_no_data "show the data"
    (ChatEnv.mk none (Collection.mk [] false false false [])
      (Collection.mk [] false false false []) (Collection.mk [] false false false [])
      (Collection.mk [] false false false []) (Except.error "") ""
      (Except.error "") (Except.error "")) (by decide) (Or.inl rfl)

/-- Counterexample for C7 as originally stated: the short-circuit reply
is produced, but its text does not contain the claimed sentinel
`"upload a CSV first"` — the word `file` sits between `CSV` and `first`
(the actual sentinel is `"upload a CSV file first"`). -/
theorem chat_sql_no_data_cex :
    (chat (ChatRequest.mk "show the rows" false false false false true)
        (ChatEnv.mk none (Collection.mk [] false false false [])
          (Collection.mk [] false false false []) (Collection.mk [] false false false [])
          (Collection.mk [] false false false []) (Except.error "") ""
          (Except.error "") (Except.error ""))).out =
      ChatOut.shortCircuit
        "No SQL database available. Please upload a CSV file first." "SQL Context" ∧
    containsSub "upload a CSV first"
      "No SQL database available. Please upload a CSV file first." = false := by
  exact ⟨rfl, rfl⟩

/-- C8 (amended): on every non-short-circuited successful answer path,
`remember_exchange` is called exactly once, storing the user message and
a backend reply `a`; the reply text returned to the caller equals the
stored text except in the Groq fallback paths of the video, audio, PDF
and image modes, where the returned text carries a `GROQ answer` mode
prefix that is not part of the stored text (SQL mode stores the full
response text it returns). -/
theorem chat_remember_reply (req : ChatRequest) (env : ChatEnv) :
    (∀ r src, (chat req env).out = ChatOut.reply r src →
      ∃ a, (chat req env).remembers = [(req.message, a)] ∧
        (r = a ∨
         r = "GROQ answer (" ++ GROQ_MODEL ++ ") [Video Mode]: \n" ++ a ∨
         r = "GROQ answer (" ++ GROQ_MODEL ++ ") [Audio Mode]: \n" ++ a ∨
         r = "GROQ answer (" ++ GROQ_MODEL ++ ") [PDF Mode]: \n" ++ a ∨
         r = "GROQ answer (" ++ GROQ_MODEL ++ ") [Image Mode]: \n" ++ a)) ∧
    (∀ r src sql n rows, (chat req env).out = ChatOut.sqlReply r src sql n rows →
      (chat req env).remembers = [(req.message, r)]) := by
  generalize ht : chat req env = t
  unfold chat at ht
  repeat' split at ht
  all_goals subst ht
  all_goals refine ⟨fun r src h => ?_, fun r src sql n rows h => ?_⟩
  all_goals
    first
    | exact ChatOut.noConfusion h
    | (injection h with h1 h2
       subst h1
       subst h2
       first
       | exact ⟨_, rfl, Or.inl rfl⟩
       | exact ⟨_, rfl, Or.inr (Or.inl rfl)⟩
       | exact ⟨_, rfl, Or.inr (Or.inr (Or.inl rfl))⟩
       | exact ⟨_, rfl, Or.inr (Or.inr (Or.inr (Or.inl rfl)))⟩
       | exact ⟨_, rfl, Or.inr (Or.inr (Or.inr (Or.inr rfl)))⟩)
    | (injection h with h1 h2 h3 h4 h5
       subst h1
       rfl)

/-- Witness for C8: the reply clause discharged on the normal-mode
Ollama path at a concrete request and environment. -/
theorem chat_remember_reply_witness :
    ∃ a, (chat (ChatRequest.mk "hey" false false false false false)
        (ChatEnv.mk none (Collection.mk [] false false false [])
          (Collection.mk [] false false false []) (Collection.mk [] false false false [])
          (Collection.mk [] false false false []) (Except.error "") "hello there"
          (Except.error "") (Except.error ""))).remembers = [("hey", a)] ∧
      ("hello there" = a ∨
       "hello there" = "GROQ answer (" ++ GROQ_MODEL ++ ") [Video Mode]: \n" ++ a ∨
       "hello there" = "GROQ answer (" ++ GROQ_MODEL ++ ") [Audio Mode]: \n" ++ a ∨
       "hello there" = "GROQ answer (" ++ GROQ_MODEL ++ ") [PDF Mode]: \n" ++ a ∨
       "hello there" = "GROQ answer (" ++ GROQ_MODEL ++ ") [Image Mode]: \n" ++ a) :=
  (chat_remember_reply (ChatRequest.mk "hey" false false false false false)
    (ChatEnv.mk none (Collection.mk [] false false false [])
      (Collection.mk [] false false false []) (Collection.mk [] false false false [])
      (Collection.mk [] false false false []) (Except.error "") "hello there"
      (Except.error "") (Except.error ""))).1 "hello there" "Ollama" rfl

/-- Counterexample for C8 as originally stated: in the video-mode Groq
path the stored assistant text is the bare backend reply `"hi"`, while
the reply returned to the caller is the prefixed
`"GROQ answer (llama-3.1-8b-instant) [Video Mode]: \nhi"` — the stored
text does not equal the returned reply text. -/
theorem chat_remember_reply_cex :
    chat (ChatRequest.mk "q" true false false false false)
        (ChatEnv.mk none
          (Collection.mk [ChunkEntry.mk "doc" (some "v.mp4")] false false false ["doc"])
          (Collection.mk [] false false false []) (Collection.mk [] false false false [])
          (Collection.mk [] false false false []) (Except.ok "hi") ""
          (Except.error "") (Except.error "")) =
      ChatTrace.mk
        (ChatOut.reply "GROQ answer (llama-3.1-8b-instant) [Video Mode]: \nhi" "Groq (Video)")
        [("q", "hi")] 1 ∧
    ("hi" : String) ≠ "GROQ answer (llama-3.1-8b-instant) [Video Mode]: \nhi" := by
  exact ⟨rfl, by decide⟩

end RagBot
